import Mathlib

/-
Shallow embedding of the ooc-app process-lifecycle supervisor
(src/src-tauri/src/commands.rs, main.rs, logger.rs).

External effects (HTTP calls, process spawning, the filesystem, the tauri
event bus) are modelled by explicit parameters describing their outcomes and
by explicit effect traces in the results.  The shared `PythonServer` state
behind the tokio mutex is threaded explicitly; where the source re-acquires
the non-reentrant mutex while its guard is still held, the model returns
`none` (the operation never completes).
-/

deriving instance DecidableEq for Except

namespace OocApp

/-- Mirrors `ApiResponse<T>` from commands.rs (the uniform result envelope). -/
structure ApiResponse (T : Type) where
  success : Bool
  data : Option T
  error : Option String
  deriving Repr, DecidableEq

/-- Mirrors `PythonServer` from commands.rs.  The `CommandChild` handle is
modelled by an opaque numeric identifier. -/
structure PythonServer where
  process : Option Nat
  port : Option Nat
  pid : Option Nat
  deriving Repr, DecidableEq

/-- Mirrors `PythonServer::new`. -/
def PythonServer.new : PythonServer :=
  { process := none, port := none, pid := none }

/-- Observable network / process-termination effects of the stop path. -/
inductive Effect where
  | httpPostStop (port : Nat)
  | killTree (pid : Nat)
  | killChild
  deriving Repr, DecidableEq

/-- Outcome of the graceful-shutdown POST in `stop_python_server_internal`:
a success status, a non-success status, or a request error (connection
refused / timeout). -/
inductive HttpOutcome where
  | success
  | badStatus
  | requestError
  deriving Repr, DecidableEq

/-- Outcome of a bounded-timeout health probe in
`check_python_server_status`. -/
inductive ProbeOutcome where
  | success
  | badStatus
  | connErr
  deriving Repr, DecidableEq

/-- Outcome of `command.spawn()`. -/
inductive SpawnResult where
  | ok (child : Nat)
  | err (msg : String)
  deriving Repr, DecidableEq

/-- Mirrors `stop_python_server_internal` (commands.rs lines 520-586).
The source takes the process handle (`server.process.take()`) and reads the
pid, but uses neither: if a port is known it only issues the graceful
shutdown POST (whose outcome affects nothing but logging), then clears
`port` and `pid`.  The returned effect list is the complete trace of network
and process-termination actions. -/
def stop_python_server_internal (st : PythonServer) (_http : HttpOutcome) :
    PythonServer × List Effect × Except String Unit :=
  let effects : List Effect :=
    match st.port with
    | some p => [Effect.httpPostStop p]
    | none => []
  ({ process := none, port := none, pid := none }, effects, Except.ok ())

/-- Mirrors the `stop_python_server` tauri command (commands.rs lines
588-614). -/
def stop_python_server (st : PythonServer) (http : HttpOutcome) :
    PythonServer × List Effect × Except String (ApiResponse String) :=
  match stop_python_server_internal st http with
  | (st2, effs, Except.ok _) =>
      (st2, effs,
        Except.ok { success := true, data := some "Python server stopped", error := none })
  | (st2, effs, Except.error e) =>
      (st2, effs, Except.ok { success := false, data := none, error := some e })

/-- Strings handled by the stdout scanner are modelled as character lists.
Mirrors Rust `str::trim`: drop whitespace from both ends. -/
def trimL (s : List Char) : List Char :=
  ((s.dropWhile Char.isWhitespace).reverse.dropWhile Char.isWhitespace).reverse

/-- The characters after the first occurrence of the (nonempty) pattern
`pat`, when it occurs; `none` otherwise.  `(afterFirst pat s).isSome`
mirrors Rust `s.contains(pat)`. -/
def afterFirst (pat : List Char) : List Char → Option (List Char)
  | [] => none
  | c :: rest =>
      if pat.isPrefixOf (c :: rest) then some ((c :: rest).drop pat.length)
      else afterFirst pat rest

/-- The characters before the next occurrence of `pat` (the whole input
when `pat` does not occur). -/
def upToNext (pat : List Char) : List Char → List Char
  | [] => []
  | c :: rest =>
      if pat.isPrefixOf (c :: rest) then []
      else c :: upToNext pat rest

/-- Mirrors Rust `s.split(pat).nth(1)` for a nonempty pattern: the segment
between the first and second non-overlapping occurrences of `pat`. -/
def splitNth1 (pat s : List Char) : Option (List Char) :=
  (afterFirst pat s).map (upToNext pat)

/-- Mirrors Rust `s.split_whitespace().next()`: the first maximal run of
non-whitespace characters, if any. -/
def firstToken (s : List Char) : Option (List Char) :=
  let s1 := s.dropWhile Char.isWhitespace
  if s1.isEmpty then none else some (s1.takeWhile (fun c => !c.isWhitespace))

/-- Decimal value of a digit string. -/
def digitsToNat (ds : List Char) : Nat :=
  ds.foldl (fun acc c => acc * 10 + (c.toNat - 48)) 0

/-- Mirrors Rust `str::parse::<u16>`: an optional leading plus sign, then a
nonempty run of ASCII digits, value at most 65535. -/
def parseU16 (s : List Char) : Option Nat :=
  let digits :=
    match s with
    | '+' :: rest => rest
    | _ => s
  if digits.isEmpty then none
  else if digits.all Char.isDigit then
    if digitsToNat digits ≤ 65535 then some (digitsToNat digits) else none
  else none

/-- The fixed bootstrap marker token. -/
def marker : List Char := ['F', 'L', 'A', 'S', 'K', '_', 'P', 'O', 'R', 'T', ':']

/-- The stdout bootstrap-marker parse, shared verbatim by the Windows path
(commands.rs lines 213-221) and the non-Windows path (lines 345-353):
trim the line; if it contains the marker `FLASK_PORT:`, take the segment
after the first occurrence (up to the next), take its first
whitespace-separated token (falling back to the whole segment), trim, and
parse as u16. -/
def parsedPort (line : List Char) : Option Nat :=
  let trimmed := trimL line
  match splitNth1 marker trimmed with
  | some portPart =>
      let portStr := trimL ((firstToken portPart).getD portPart)
      parseU16 portStr
  | none => none

/-- Events emitted to the presentation layer. -/
inductive FlaskEvent where
  | portReady (port : Nat)
  deriving Repr, DecidableEq

/-- Mirrors one iteration of the Windows stdout reader task (commands.rs
lines 206-240): on a successful marker parse it emits `flask-port-ready`
once, then stores the port and the spawn-time pid into shared state. -/
def handleStdoutLineWin (st : PythonServer) (pid : Nat) (line : List Char) :
    PythonServer × List FlaskEvent :=
  match parsedPort line with
  | some port =>
      ({ st with port := some port, pid := some pid }, [FlaskEvent.portReady port])
  | none => (st, [])

/-- Mirrors one `CommandEvent::Stdout` iteration of the non-Windows reader
task (commands.rs lines 340-403): on a successful marker parse it emits
`flask-port-ready` (lines 354-360), stores the port (the windows-only pid
lookup at lines 368-375 is compiled out on this path), then emits
`flask-port-ready` a second time (lines 380-386). -/
def handleStdoutLineUnix (st : PythonServer) (line : List Char) :
    PythonServer × List FlaskEvent :=
  match parsedPort line with
  | some port =>
      ({ st with port := some port },
        [FlaskEvent.portReady port, FlaskEvent.portReady port])
  | none => (st, [])

/-- The fixed sweep range of `get_flask_port`: ports 5000 through 5100. -/
def sweepPorts : List Nat := List.range' 5000 101

/-- Mirrors the `get_flask_port` tauri command (commands.rs lines 420-491).
`st1` is the shared state at entry; `st2` is the shared state observed at
the re-check after the fixed 500 ms sleep (other tasks may have updated it
in between); `probe p` tells whether the 200 ms-timeout health probe of
port `p` returned a success status.  The sweep awaits its probe tasks in
port order, so it returns the lowest answering port in the range. -/
def get_flask_port (st1 st2 : PythonServer) (probe : Nat → Bool) :
    PythonServer × Except String (ApiResponse Nat) :=
  match st1.port with
  | some p =>
      (st1, Except.ok { success := true, data := some p, error := none })
  | none =>
    match st2.port with
    | some p =>
        (st2, Except.ok { success := true, data := some p, error := none })
    | none =>
      match sweepPorts.find? probe with
      | some p =>
          ({ st2 with port := some p },
            Except.ok { success := true, data := some p, error := none })
      | none =>
          (st2, Except.ok { success := false, data := none, error := some "Cannot get port number, server may not be started" })

/-- Mirrors the `check_python_server_status` tauri command (commands.rs
lines 645-697).  `portFileHint` is the port parsed from the persisted
`port.txt`, when that file exists and parses; the fixed default is 5000. -/
def check_python_server_status (st : PythonServer) (portFileHint : Option Nat)
    (probe : Nat → ProbeOutcome) : Except String (ApiResponse Bool) :=
  let port := st.port.getD (portFileHint.getD 5000)
  match probe port with
  | ProbeOutcome.success =>
      Except.ok { success := true, data := some true, error := none }
  | ProbeOutcome.badStatus =>
      Except.ok { success := false, data := some false, error := some "Server response error" }
  | ProbeOutcome.connErr =>
      Except.ok { success := false, data := some false, error := some "Cannot connect to server" }

/-- Mirrors the `get_database_path` tauri command (commands.rs lines
616-643).  `appDataDir` is the outcome of `app_data_dir()`, `createDirErr`
the failure of `create_dir_all`, when any. -/
def get_database_path (appDataDir : Except String String)
    (createDirErr : Option String) : Except String (ApiResponse String) :=
  match appDataDir with
  | Except.ok dir =>
    match createDirErr with
    | some e =>
        Except.ok { success := false, data := none, error := some ("Failed to create app data directory: " ++ e) }
    | none =>
        Except.ok { success := true, data := some (dir ++ "/chat.db"), error := none }
  | Except.error e =>
      Except.ok { success := false, data := none, error := some ("Failed to get app data directory: " ++ e) }

/-- The call to `stop_python_server_internal` as reached from inside
`start_python_server`, where the caller's guard on the same non-reentrant
tokio mutex is still held across the await: acquiring the lock a second
time from the same task never completes, so the call yields no result. -/
def lockedStopInternal (lockHeldBySelf : Bool) (st : PythonServer)
    (http : HttpOutcome) : Option (PythonServer × List Effect × Except String Unit) :=
  if lockHeldBySelf then none
  else some (stop_python_server_internal st http)

/-- Mirrors the non-Windows body of the `start_python_server` tauri command
(commands.rs lines 38-47 and 271-418).  The function locks the state mutex
and holds the guard for its whole body; if `process` is already `Some` it
awaits `stop_python_server` (which re-locks the held mutex, hence `none`:
the command never returns).  `createDirErr` is a `create_dir_all` failure
(after a successful `app_data_dir()`); `sidecarErr` is a failure of
`shell().sidecar("flask-api")`, consulted only in non-debug builds. -/
def start_python_server_unix (st : PythonServer) (http : HttpOutcome)
    (createDirErr : Option String) (sidecarErr : Option String)
    (isDebug : Bool) (spawn : SpawnResult) :
    Option (PythonServer × Except String (ApiResponse String)) :=
  if st.process.isSome then
    match lockedStopInternal true st http with
    | none => none
    | some (st2, _, _) => some (st2, Except.error "unreachable")
  else
    match createDirErr with
    | some e =>
        some (st, Except.ok { success := false, data := none, error := some ("Failed to create app data directory: " ++ e) })
    | none =>
      match (if isDebug then none else sidecarErr) with
      | some e =>
          some (st, Except.ok { success := false, data := none, error := some ("Cannot find embedded Python server executable: " ++ e) })
      | none =>
        match spawn with
        | SpawnResult.ok child =>
            some ({ st with process := some child },
              Except.ok { success := true, data := some "Python Flask server started successfully", error := none })
        | SpawnResult.err e =>
            some (st, Except.ok { success := false, data := none, error := some ("Failed to start Python server: " ++ e) })

/-- Mirrors the Windows body of the `start_python_server` tauri command
(commands.rs lines 38-47 and 64-269).  Same lock structure as the
non-Windows path.  `resourceDir` is the outcome of `resource_dir()`
(non-debug only); `archX64`, `platformExeExists`, `genericExeExists`
describe the packaged-executable lookup; `childId` is `child.id()`;
`stdoutOk` / `stderrOk` tell whether the piped streams could be taken.
On success the child handle is moved into a background wait task and the
shared `process` field is never set - only `pid` is recorded. -/
def start_python_server_win (st : PythonServer) (http : HttpOutcome)
    (createDirErr : Option String) (isDebug : Bool)
    (resourceDir : Except String Unit)
    (archX64 platformExeExists genericExeExists : Bool)
    (spawn : SpawnResult) (childId : Option Nat) (stdoutOk stderrOk : Bool) :
    Option (PythonServer × Except String (ApiResponse String)) :=
  if st.process.isSome then
    match lockedStopInternal true st http with
    | none => none
    | some (st2, _, _) => some (st2, Except.error "unreachable")
  else
    match createDirErr with
    | some e =>
        some (st, Except.ok { success := false, data := none, error := some ("Failed to create app data directory: " ++ e) })
    | none =>
      let exeErr : Option String :=
        if isDebug then none
        else
          match resourceDir with
          | Except.error e => some ("Failed to get resource directory: " ++ e)
          | Except.ok _ =>
            if archX64 then
              if platformExeExists then none
              else if genericExeExists then none
              else some "Cannot find embedded Python server executable"
            else some "Unsupported architecture"
      match exeErr with
      | some e =>
          some (st, Except.ok { success := false, data := none, error := some e })
      | none =>
        match spawn with
        | SpawnResult.err e =>
            some (st, Except.ok { success := false, data := none, error := some ("Failed to start Python server: " ++ e) })
        | SpawnResult.ok _ =>
          let pid := childId.getD 0
          if !stdoutOk then
            some (st, Except.ok { success := false, data := none, error := some "Failed to get stdout" })
          else if !stderrOk then
            some (st, Except.ok { success := false, data := none, error := some "Failed to get stderr" })
          else
            some ({ st with pid := some pid },
              Except.ok { success := true, data := some "Python Flask server started successfully", error := none })

/-- Result-envelope well-formedness: success implies no error message,
failure implies an error message is present. -/
def wellFormedB {T : Type} (r : ApiResponse T) : Bool :=
  (!r.success || r.error.isNone) && (r.success || r.error.isSome)

/-- A command result is the `Ok` variant of `Result` and its envelope is
well-formed. -/
def okWF {T : Type} : Except String (ApiResponse T) → Bool
  | Except.ok r => wellFormedB r
  | Except.error _ => false

/-- `okWF` lifted over commands that may never return (deadlock). -/
def okWFOpt {T : Type} : Option (PythonServer × Except String (ApiResponse T)) → Bool
  | none => true
  | some (_, r) => okWF r

/-- Mirrors `CLOSING.swap(true, Ordering::SeqCst)` (main.rs line 78):
returns the new flag value and the previous one. -/
def closingSwap (flag : Bool) : Bool × Bool :=
  (true, flag)

/-- Mirrors the `RunEvent::ExitRequested` handler (main.rs lines 76-118):
atomically test-and-set `CLOSING`; if it was already set, return
immediately doing nothing; otherwise run the stop-and-exit sequence.
Returns the new flag value and whether this trigger ran the sequence. -/
def onExitRequested (flag : Bool) : Bool × Bool :=
  match closingSwap flag with
  | (newFlag, oldFlag) => if oldFlag then (newFlag, false) else (newFlag, true)

/-- Runs `n` successive shutdown triggers against the flag (the atomic
swap linearizes concurrent triggers into some sequence); returns the final
flag value and how many triggers ran the stop-and-exit sequence. -/
def runTriggers : Bool → Nat → Bool × Nat
  | flag, 0 => (flag, 0)
  | flag, n + 1 =>
      let step := onExitRequested flag
      let rest := runTriggers step.1 n
      (rest.1, (if step.2 then 1 else 0) + rest.2)

/-- Mirrors `MAX_LOG_FILE_SIZE` (logger.rs line 6). -/
def MAX_LOG_FILE_SIZE : Nat := 10 * 1024 * 1024

/-- Mirrors `MAX_LOG_BACKUP_COUNT` (logger.rs line 7). -/
def MAX_LOG_BACKUP_COUNT : Nat := 5

/-- The log directory: the active `rust_error.log` and the numbered
backups `rust_error.log.i` (indices from 1), each a list of lines when the
file exists. -/
structure LogDir where
  active : Option (List String)
  backup : Nat → Option (List String)

/-- Byte size of a log file: each line plus its trailing newline. -/
def fileSize (f : List String) : Nat :=
  (f.map (fun l => l.length + 1)).sum

/-- One iteration of the rotation loop in `rotate_log_file` (logger.rs
lines 89-101) for index `i`: if `rust_error.log.i` exists, remove it when
`i` is at least the backup count, otherwise rename it to index `i + 1`. -/
def rotateStep (fs : LogDir) (i : Nat) : LogDir :=
  match fs.backup i with
  | none => fs
  | some c =>
    if MAX_LOG_BACKUP_COUNT ≤ i then
      { fs with backup := fun j => if j = i then none else fs.backup j }
    else
      { fs with backup := fun j =>
          if j = i + 1 then some c else if j = i then none else fs.backup j }

/-- Mirrors `rotate_log_file` (logger.rs lines 87-110): iterate indices
from the backup count down to 1, then rename the active file to backup
index 1 when it exists. -/
def rotate_log_file (fs : LogDir) : LogDir :=
  let fs1 := ((List.range' 1 MAX_LOG_BACKUP_COUNT).reverse).foldl rotateStep fs
  match fs1.active with
  | none => fs1
  | some c =>
      { active := none, backup := fun j => if j = 1 then some c else fs1.backup j }

/-- The line appended for one entry, mirroring
`writeln!(file, "[TS] ERROR: MSG")` (logger.rs line 68). -/
def logEntry (ts : Nat) (msg : String) : String :=
  "[" ++ toString ts ++ "] ERROR: " ++ msg

/-- Mirrors `write_to_log_file` (logger.rs lines 44-85), minus the sampled
directory-wide cleanup that runs after the append: rotate first when the
active file exists and has reached the size ceiling, then append the entry
(creating the file when absent). -/
def write_to_log_file (fs : LogDir) (ts : Nat) (msg : String) : LogDir :=
  let fs1 :=
    match fs.active with
    | some c => if MAX_LOG_FILE_SIZE ≤ fileSize c then rotate_log_file fs else fs
    | none => fs
  match fs1.active with
  | some c => { fs1 with active := some (c ++ [logEntry ts msg]) }
  | none => { fs1 with active := some [logEntry ts msg] }

theorem runTriggers_true (n : Nat) : runTriggers true n = (true, 0) := by
  induction n with
  | zero => rfl
  | succ n ih => simp [runTriggers, onExitRequested, closingSwap, ih]

/-- Claim C2: the process-wide shutdown flag goes from idle to closing at
most once per run via the atomic test-and-set; only the first trigger that
observes idle runs the stop-and-exit sequence, every trigger that observes
closing returns immediately doing nothing, and the flag is never reset to
idle. -/
theorem closing_flag_single_shot (n : Nat) :
    onExitRequested false = (true, true) ∧
    onExitRequested true = (true, false) ∧
    runTriggers false (n + 1) = (true, 1) ∧
    runTriggers true n = (true, 0) := by
  refine ⟨rfl, rfl, ?_, runTriggers_true n⟩
  simp [runTriggers, onExitRequested, closingSwap, runTriggers_true n]

/-- Claim C3: for every state of the worker handle and every outcome of the
graceful-shutdown call, `stop_python_server` returns success to its caller,
and the shared lifecycle state is fully cleared - process, port and pid all
empty - when it returns. -/
theorem stop_always_succeeds_and_clears_state (st : PythonServer) (http : HttpOutcome) :
    (stop_python_server st http).2.2 =
      Except.ok { success := true, data := some "Python server stopped", error := none } ∧
    (stop_python_server st http).1 = { process := none, port := none, pid := none } :=
  ⟨rfl, rfl⟩

/-- Claim C1 (counterexample): with a known port, a recorded pid and a held
process handle, and the graceful-shutdown call failing, the complete effect
trace of `stop` is just the shutdown POST - it contains neither the
process-tree kill of the recorded pid nor a direct kill of the handle that
the claim requires. -/
theorem stop_requestError_no_kill_at_concrete :
    stop_python_server { process := some 1, port := some 5000, pid := some 42 }
        HttpOutcome.requestError =
      ({ process := none, port := none, pid := none }, [Effect.httpPostStop 5000],
        Except.ok { success := true, data := some "Python server stopped", error := none }) ∧
    ([Effect.httpPostStop 5000].contains (Effect.killTree 42)) = false ∧
    ([Effect.httpPostStop 5000].contains Effect.killChild) = false := by
  refine ⟨by decide, by decide, by decide⟩

/-- Claim C1 (amended): when the graceful-shutdown HTTP call fails or times
out, `stop` performs no forced termination at all - its effect trace is
exactly the shutdown POST when a port is known and empty otherwise, with no
tree-kill and no direct kill - and it still clears all state and returns
success. -/
theorem stop_requestError_performs_no_forced_termination (st : PythonServer) :
    (stop_python_server st HttpOutcome.requestError).2.1 =
      (match st.port with
       | some p => [Effect.httpPostStop p]
       | none => []) ∧
    (∀ q, ((stop_python_server st HttpOutcome.requestError).2.1.contains
      (Effect.killTree q)) = false) ∧
    ((stop_python_server st HttpOutcome.requestError).2.1.contains Effect.killChild) = false ∧
    (stop_python_server st HttpOutcome.requestError).2.2 =
      Except.ok { success := true, data := some "Python server stopped", error := none } ∧
    (stop_python_server st HttpOutcome.requestError).1 =
      { process := none, port := none, pid := none } := by
  refine ⟨rfl, ?_, ?_, rfl, rfl⟩
  · intro q
    cases h : st.port <;>
      simp [stop_python_server, stop_python_server_internal, h, List.contains]
  · cases h : st.port <;>
      simp [stop_python_server, stop_python_server_internal, h, List.contains]

/-- Claim C5 (code bug): invoking `start` while a worker is already marked
running never completes.  The command holds the state-mutex guard across
its await of the stop sequence, and `stop_python_server_internal` then
re-acquires the same non-reentrant async mutex, so the claimed
stop-then-respawn sequence deadlocks instead; by contrast, from a
not-running state the same invocation spawns a fresh worker. -/
theorem start_while_running_deadlocks :
    start_python_server_unix { process := some 7, port := some 5000, pid := some 42 }
        HttpOutcome.requestError none none true (SpawnResult.ok 8) = none ∧
    lockedStopInternal true { process := some 7, port := some 5000, pid := some 42 }
        HttpOutcome.requestError = none ∧
    start_python_server_unix { process := none, port := none, pid := none }
        HttpOutcome.requestError none none true (SpawnResult.ok 8) =
      some ({ process := some 8, port := none, pid := none },
        Except.ok { success := true, data := some "Python Flask server started successfully", error := none }) := by
  refine ⟨by decide, by decide, by decide⟩

/-- Claim C7 (counterexample): on the Windows path a fully successful start
reports success yet leaves the `process` field empty (only the pid is
recorded), contradicting the claim that after every successful start, on
every supported platform, `process` holds the live child handle. -/
theorem win_start_success_leaves_process_none :
    start_python_server_win PythonServer.new HttpOutcome.requestError none true
        (Except.ok ()) true true true (SpawnResult.ok 9) (some 42) true true =
      some ({ process := none, port := none, pid := some 42 },
        Except.ok { success := true, data := some "Python Flask server started successfully", error := none }) ∧
    ((start_python_server_win PythonServer.new HttpOutcome.requestError none true
        (Except.ok ()) true true true (SpawnResult.ok 9) (some 42) true true).map
      (fun r => r.1.process.isSome)) = some false := by
  refine ⟨by decide, by decide⟩

/-- Claim C7 (amended): on the non-Windows path `process` tracks spawn and
stop exactly - a successful spawn from a not-running state sets it to the
child handle, a failed spawn leaves it empty, and every completed stop
clears it - while on the Windows path the child handle is never stored:
after a successful start `process` is still empty and only the pid is
recorded. -/
theorem process_field_platform_behavior (port0 pid0 : Option Nat) (child : Nat)
    (e : String) (isDebug : Bool) (st : PythonServer) (http : HttpOutcome) :
    start_python_server_unix { process := none, port := port0, pid := pid0 }
        http none none isDebug (SpawnResult.ok child) =
      some ({ process := some child, port := port0, pid := pid0 },
        Except.ok { success := true, data := some "Python Flask server started successfully", error := none }) ∧
    start_python_server_unix { process := none, port := port0, pid := pid0 }
        http none none isDebug (SpawnResult.err e) =
      some ({ process := none, port := port0, pid := pid0 },
        Except.ok { success := false, data := none, error := some ("Failed to start Python server: " ++ e) }) ∧
    (stop_python_server st http).1.process = none ∧
    start_python_server_win { process := none, port := port0, pid := pid0 }
        http none isDebug (Except.ok ()) true true true (SpawnResult.ok child)
        (some child) true true =
      some ({ process := none, port := port0, pid := some child },
        Except.ok { success := true, data := some "Python Flask server started successfully", error := none }) := by
  refine ⟨?_, ?_, rfl, ?_⟩ <;>
    cases isDebug <;>
      simp [start_python_server_unix, start_python_server_win, lockedStopInternal]

/-- Claim C8: calling `stop` when no worker was ever started (process, port
and pid all absent) returns success, performs no network requests and no
process-termination calls (the effect trace is empty), and leaves the
handle in the not-running state. -/
theorem stop_without_worker_noop (http : HttpOutcome) :
    stop_python_server { process := none, port := none, pid := none } http =
      ({ process := none, port := none, pid := none }, [],
        Except.ok { success := true, data := some "Python server stopped", error := none }) :=
  rfl

/-- Claim C4 (counterexample): on the non-Windows path the stdout line
`FLASK_PORT:4321` produces two `flask-port-ready` emissions with value
4321, not exactly one, even though the port itself is stored correctly. -/
theorem unix_marker_parse_emits_twice_at_concrete :
    (handleStdoutLineUnix PythonServer.new "FLASK_PORT:4321".data).2 =
      [FlaskEvent.portReady 4321, FlaskEvent.portReady 4321] ∧
    ((handleStdoutLineUnix PythonServer.new "FLASK_PORT:4321".data).2.length == 1) = false ∧
    (handleStdoutLineUnix PythonServer.new "FLASK_PORT:4321".data).1.port = some 4321 := by
  refine ⟨by decide, by decide, by decide⟩

/-- Claim C4 (amended): for every stdout line whose marker parse succeeds
with port p, the port is written into shared state and `getPort` then
returns it; the port-ready event is emitted with value p exactly once per
successful parse on the Windows path but exactly twice per successful
parse on the non-Windows path. -/
theorem marker_parse_stores_port_and_emission_counts
    (st : PythonServer) (pid : Nat) (line : List Char) (p : Nat)
    (probe : Nat → Bool) (h : parsedPort line = some p) :
    handleStdoutLineUnix st line =
      ({ st with port := some p }, [FlaskEvent.portReady p, FlaskEvent.portReady p]) ∧
    handleStdoutLineWin st pid line =
      ({ st with port := some p, pid := some pid }, [FlaskEvent.portReady p]) ∧
    ((handleStdoutLineWin st pid line).2.count (FlaskEvent.portReady p)) = 1 ∧
    ((handleStdoutLineUnix st line).2.count (FlaskEvent.portReady p)) = 2 ∧
    (get_flask_port (handleStdoutLineUnix st line).1
        (handleStdoutLineUnix st line).1 probe).2 =
      Except.ok { success := true, data := some p, error := none } ∧
    (get_flask_port (handleStdoutLineWin st pid line).1
        (handleStdoutLineWin st pid line).1 probe).2 =
      Except.ok { success := true, data := some p, error := none } := by
  simp [handleStdoutLineUnix, handleStdoutLineWin, h, get_flask_port,
    List.count_cons_self, List.count_nil]

/-- Claim C4 (witness): the amended behavior instantiated at the concrete
line `FLASK_PORT:4321`. -/
theorem marker_parse_witness :
    parsedPort "FLASK_PORT:4321".data = some 4321 ∧
    (handleStdoutLineUnix PythonServer.new "FLASK_PORT:4321".data =
        ({ PythonServer.new with port := some 4321 },
          [FlaskEvent.portReady 4321, FlaskEvent.portReady 4321]) ∧
      handleStdoutLineWin PythonServer.new 42 "FLASK_PORT:4321".data =
        ({ PythonServer.new with port := some 4321, pid := some 42 },
          [FlaskEvent.portReady 4321]) ∧
      ((handleStdoutLineWin PythonServer.new 42 "FLASK_PORT:4321".data).2.count
        (FlaskEvent.portReady 4321)) = 1 ∧
      ((handleStdoutLineUnix PythonServer.new "FLASK_PORT:4321".data).2.count
        (FlaskEvent.portReady 4321)) = 2 ∧
      (get_flask_port (handleStdoutLineUnix PythonServer.new "FLASK_PORT:4321".data).1
          (handleStdoutLineUnix PythonServer.new "FLASK_PORT:4321".data).1
          (fun _ => false)).2 =
        Except.ok { success := true, data := some 4321, error := none } ∧
      (get_flask_port (handleStdoutLineWin PythonServer.new 42 "FLASK_PORT:4321".data).1
          (handleStdoutLineWin PythonServer.new 42 "FLASK_PORT:4321".data).1
          (fun _ => false)).2 =
        Except.ok { success := true, data := some 4321, error := none }) :=
  ⟨by decide,
    marker_parse_stores_port_and_emission_counts PythonServer.new 42
      "FLASK_PORT:4321".data 4321 (fun _ => false) (by decide)⟩

theorem find?_range'_first (probe : Nat → Bool) :
    ∀ n a p, (List.range' a n).find? probe = some p →
      a ≤ p ∧ p < a + n ∧ probe p = true ∧ ∀ q, a ≤ q → q < p → probe q = false := by
  intro n
  induction n with
  | zero =>
      intro a p h
      simp [List.range'] at h
  | succ n ih =>
      intro a p h
      rw [List.range'_succ] at h
      cases hpa : probe a with
      | true =>
          rw [List.find?_cons_of_pos _ hpa] at h
          have hap : a = p := by
            injection h
          subst hap
          refine ⟨Nat.le_refl a, by omega, hpa, ?_⟩
          intro q hq1 hq2
          omega
      | false =>
          rw [List.find?_cons_of_neg _ (by simp [hpa])] at h
          obtain ⟨h1, h2, h3, h4⟩ := ih (a + 1) p h
          refine ⟨by omega, by omega, h3, ?_⟩
          intro q hq1 hq2
          rcases Nat.eq_or_lt_of_le hq1 with hqa | hqa
          · rw [← hqa]
            exact hpa
          · exact h4 q (by omega) hq2

/-- Claim C6: `get_flask_port` returns the stored port when one is known;
otherwise it re-checks after the fixed delay and returns the port if one
has appeared; if the port is still unknown it sweeps ports 5000-5100 with
health probes, returns the first (lowest) port whose probe answers
successfully and caches it into shared state; and if no probed port
answers it fails with the port-unknown error. -/
theorem get_flask_port_spec (st1 st2 : PythonServer) (probe : Nat → Bool) :
    (∀ p, st1.port = some p →
      get_flask_port st1 st2 probe =
        (st1, Except.ok { success := true, data := some p, error := none })) ∧
    (st1.port = none → ∀ p, st2.port = some p →
      get_flask_port st1 st2 probe =
        (st2, Except.ok { success := true, data := some p, error := none })) ∧
    (st1.port = none → st2.port = none → ∀ p, sweepPorts.find? probe = some p →
      get_flask_port st1 st2 probe =
        ({ st2 with port := some p },
          Except.ok { success := true, data := some p, error := none }) ∧
      5000 ≤ p ∧ p ≤ 5100 ∧ probe p = true ∧
      (∀ q, 5000 ≤ q → q < p → probe q = false)) ∧
    (st1.port = none → st2.port = none → sweepPorts.find? probe = none →
      get_flask_port st1 st2 probe =
        (st2, Except.ok { success := false, data := none, error := some "Cannot get port number, server may not be started" })) := by
  refine ⟨?_, ?_, ?_, ?_⟩
  · intro p hp
    simp [get_flask_port, hp]
  · intro h1 p hp
    simp [get_flask_port, h1, hp]
  · intro h1 h2 p hp
    obtain ⟨ha, hb, hc, hd⟩ := find?_range'_first probe 101 5000 p hp
    refine ⟨by simp [get_flask_port, h1, h2, hp], ha, by omega, hc, hd⟩
  · intro h1 h2 hp
    simp [get_flask_port, h1, h2, hp]

/-- Claim C6 (witness): the sweep branch instantiated with empty states and
a probe answering only at port 5050. -/
theorem get_flask_port_spec_witness :
    PythonServer.new.port = none ∧
    sweepPorts.find? (fun q => q == 5050) = some 5050 ∧
    get_flask_port PythonServer.new PythonServer.new (fun q => q == 5050) =
      ({ PythonServer.new with port := some 5050 },
        Except.ok { success := true, data := some 5050, error := none }) ∧
    (fun q => q == 5050) 5050 = true ∧
    (fun q => q == 5050) 5010 = false :=
  ⟨rfl, by decide,
    (((get_flask_port_spec PythonServer.new PythonServer.new
      (fun q => q == 5050)).2.2.1 rfl rfl 5050 (by decide)).1),
    (((get_flask_port_spec PythonServer.new PythonServer.new
      (fun q => q == 5050)).2.2.1 rfl rfl 5050 (by decide)).2.2.2.1),
    (((get_flask_port_spec PythonServer.new PythonServer.new
      (fun q => q == 5050)).2.2.1 rfl rfl 5050 (by decide)).2.2.2.2 5010
        (by decide) (by decide))⟩

theorem rotateStep_active (fs : LogDir) (i : Nat) :
    (rotateStep fs i).active = fs.active := by
  unfold rotateStep
  cases h : fs.backup i <;> by_cases hm : MAX_LOG_BACKUP_COUNT ≤ i <;> simp [hm]

theorem rotateStep_backup_self (fs : LogDir) (i : Nat) :
    (rotateStep fs i).backup i = none := by
  unfold rotateStep
  cases h : fs.backup i <;> by_cases hm : MAX_LOG_BACKUP_COUNT ≤ i <;> simp [h, hm]

theorem rotateStep_backup_other (fs : LogDir) (i j : Nat) (h1 : j ≠ i) (h2 : j ≠ i + 1) :
    (rotateStep fs i).backup j = fs.backup j := by
  unfold rotateStep
  cases h : fs.backup i <;> by_cases hm : MAX_LOG_BACKUP_COUNT ≤ i <;> simp [h1, h2, hm]

theorem rotateStep_backup_del (fs : LogDir) (i j : Nat)
    (hmax : MAX_LOG_BACKUP_COUNT ≤ i) (h1 : j ≠ i) :
    (rotateStep fs i).backup j = fs.backup j := by
  unfold rotateStep
  cases h : fs.backup i <;> simp [h1, hmax]

theorem rotateStep_backup_succ (fs : LogDir) (i : Nat)
    (hlt : i < MAX_LOG_BACKUP_COUNT) (hnone : fs.backup (i + 1) = none) :
    (rotateStep fs i).backup (i + 1) = fs.backup i := by
  unfold rotateStep
  cases h : fs.backup i
  · exact hnone
  · simp [Nat.not_le_of_lt hlt]

theorem rotate_log_file_spec (c : List String) (bs : Nat → Option (List String)) :
    (rotate_log_file { active := some c, backup := bs }).active = none ∧
    (rotate_log_file { active := some c, backup := bs }).backup 1 = some c ∧
    (rotate_log_file { active := some c, backup := bs }).backup 2 = bs 1 ∧
    (rotate_log_file { active := some c, backup := bs }).backup 3 = bs 2 ∧
    (rotate_log_file { active := some c, backup := bs }).backup 4 = bs 3 ∧
    (rotate_log_file { active := some c, backup := bs }).backup 5 = bs 4 ∧
    (∀ j, MAX_LOG_BACKUP_COUNT < j →
      (rotate_log_file { active := some c, backup := bs }).backup j = bs j) := by
  have hlist : (List.range' 1 MAX_LOG_BACKUP_COUNT).reverse = [5, 4, 3, 2, 1] := rfl
  set fs0 : LogDir := { active := some c, backup := bs } with hfs0
  set sA := rotateStep fs0 5 with hsA
  set sB := rotateStep sA 4 with hsB
  set sC := rotateStep sB 3 with hsC
  set sD := rotateStep sC 2 with hsD
  set sE := rotateStep sD 1 with hsE
  have hfold : ((List.range' 1 MAX_LOG_BACKUP_COUNT).reverse).foldl rotateStep fs0 = sE := by
    rw [hlist]
    simp only [List.foldl_cons, List.foldl_nil]
  have hEact : sE.active = some c := by
    rw [hsE, rotateStep_active, hsD, rotateStep_active, hsC, rotateStep_active,
      hsB, rotateStep_active, hsA, rotateStep_active]
  have hrot : rotate_log_file fs0 =
      { active := none, backup := fun j => if j = 1 then some c else sE.backup j } := by
    unfold rotate_log_file
    simp only [hfold, hEact]
  have hE2 : sE.backup 2 = bs 1 := by
    rw [hsE, rotateStep_backup_succ sD 1 (by decide)
      (by rw [hsD, rotateStep_backup_self])]
    rw [hsD, rotateStep_backup_other sC 2 1 (by decide) (by decide),
      hsC, rotateStep_backup_other sB 3 1 (by decide) (by decide),
      hsB, rotateStep_backup_other sA 4 1 (by decide) (by decide),
      hsA, rotateStep_backup_other fs0 5 1 (by decide) (by decide)]
  have hE3 : sE.backup 3 = bs 2 := by
    rw [hsE, rotateStep_backup_other sD 1 3 (by decide) (by decide),
      hsD, rotateStep_backup_succ sC 2 (by decide)
        (by rw [hsC, rotateStep_backup_self]),
      hsC, rotateStep_backup_other sB 3 2 (by decide) (by decide),
      hsB, rotateStep_backup_other sA 4 2 (by decide) (by decide),
      hsA, rotateStep_backup_other fs0 5 2 (by decide) (by decide)]
  have hE4 : sE.backup 4 = bs 3 := by
    rw [hsE, rotateStep_backup_other sD 1 4 (by decide) (by decide),
      hsD, rotateStep_backup_other sC 2 4 (by decide) (by decide),
      hsC, rotateStep_backup_succ sB 3 (by decide)
        (by rw [hsB, rotateStep_backup_self]),
      hsB, rotateStep_backup_other sA 4 3 (by decide) (by decide),
      hsA, rotateStep_backup_other fs0 5 3 (by decide) (by decide)]
  have hE5 : sE.backup 5 = bs 4 := by
    rw [hsE, rotateStep_backup_other sD 1 5 (by decide) (by decide),
      hsD, rotateStep_backup_other sC 2 5 (by decide) (by decide),
      hsC, rotateStep_backup_other sB 3 5 (by decide) (by decide),
      hsB, rotateStep_backup_succ sA 4 (by decide)
        (by rw [hsA, rotateStep_backup_self]),
      hsA, rotateStep_backup_other fs0 5 4 (by decide) (by decide)]
  have hEgt : ∀ j, MAX_LOG_BACKUP_COUNT < j → sE.backup j = bs j := by
    intro j hj
    have hj5 : 5 < j := hj
    rw [hsE, rotateStep_backup_other sD 1 j (by omega) (by omega),
      hsD, rotateStep_backup_other sC 2 j (by omega) (by omega),
      hsC, rotateStep_backup_other sB 3 j (by omega) (by omega),
      hsB, rotateStep_backup_other sA 4 j (by omega) (by omega),
      hsA, rotateStep_backup_del fs0 5 j (by decide) (by omega)]
  refine ⟨by simp [hrot], by simp [hrot], by simp [hrot, hE2], by simp [hrot, hE3],
    by simp [hrot, hE4], by simp [hrot, hE5], ?_⟩
  intro j hj
  have hj5 : 5 < j := hj
  rw [hrot]
  show (if j = 1 then some c else sE.backup j) = bs j
  rw [if_neg (by omega)]
  exact hEgt j hj

/-- Claim C9: for every write that finds the active log file at or above
the size ceiling, exactly one rotation runs before the append: the active
file becomes backup index 1, each numbered backup shifts up by one index,
the backup at the backup count is dropped rather than shifted past it
(indices beyond the count are untouched), and the active file restarts
containing only the newly appended entry. -/
theorem log_rotation_spec (c : List String) (bs : Nat → Option (List String))
    (ts : Nat) (msg : String) (h : MAX_LOG_FILE_SIZE ≤ fileSize c) :
    (write_to_log_file { active := some c, backup := bs } ts msg).active =
      some [logEntry ts msg] ∧
    (write_to_log_file { active := some c, backup := bs } ts msg).backup =
      (rotate_log_file { active := some c, backup := bs }).backup ∧
    (write_to_log_file { active := some c, backup := bs } ts msg).backup 1 = some c ∧
    (write_to_log_file { active := some c, backup := bs } ts msg).backup 2 = bs 1 ∧
    (write_to_log_file { active := some c, backup := bs } ts msg).backup 3 = bs 2 ∧
    (write_to_log_file { active := some c, backup := bs } ts msg).backup 4 = bs 3 ∧
    (write_to_log_file { active := some c, backup := bs } ts msg).backup 5 = bs 4 ∧
    (∀ j, MAX_LOG_BACKUP_COUNT < j →
      (write_to_log_file { active := some c, backup := bs } ts msg).backup j = bs j) := by
  obtain ⟨r0, r1, r2, r3, r4, r5, rgt⟩ := rotate_log_file_spec c bs
  have h1 : (if MAX_LOG_FILE_SIZE ≤ fileSize c then
        rotate_log_file { active := some c, backup := bs }
      else ({ active := some c, backup := bs } : LogDir)) =
      rotate_log_file { active := some c, backup := bs } := if_pos h
  have hw : write_to_log_file { active := some c, backup := bs } ts msg =
      { active := some [logEntry ts msg],
        backup := (rotate_log_file { active := some c, backup := bs }).backup } := by
    simp only [write_to_log_file, h1, r0]
  rw [hw]
  exact ⟨rfl, rfl, r1, r2, r3, r4, r5, rgt⟩

theorem fileSize_singleton (s : String) : fileSize [s] = s.length + 1 := rfl

/-- Claim C9 (witness): the rotation behavior instantiated with a concrete
over-ceiling active file and one existing backup at index 1. -/
theorem log_rotation_spec_witness :
    MAX_LOG_FILE_SIZE ≤ fileSize [String.mk (List.replicate MAX_LOG_FILE_SIZE 'a')] ∧
    (write_to_log_file
        { active := some [String.mk (List.replicate MAX_LOG_FILE_SIZE 'a')],
          backup := fun j => if j = 1 then some ["old"] else none }
        1700000000 "disk full").active = some [logEntry 1700000000 "disk full"] ∧
    (write_to_log_file
        { active := some [String.mk (List.replicate MAX_LOG_FILE_SIZE 'a')],
          backup := fun j => if j = 1 then some ["old"] else none }
        1700000000 "disk full").backup 1 =
      some [String.mk (List.replicate MAX_LOG_FILE_SIZE 'a')] ∧
    (write_to_log_file
        { active := some [String.mk (List.replicate MAX_LOG_FILE_SIZE 'a')],
          backup := fun j => if j = 1 then some ["old"] else none }
        1700000000 "disk full").backup 2 = some ["old"] ∧
    (write_to_log_file
        { active := some [String.mk (List.replicate MAX_LOG_FILE_SIZE 'a')],
          backup := fun j => if j = 1 then some ["old"] else none }
        1700000000 "disk full").backup 6 = none := by
  have hsize : MAX_LOG_FILE_SIZE ≤
      fileSize [String.mk (List.replicate MAX_LOG_FILE_SIZE 'a')] := by
    have hlen : (String.mk (List.replicate MAX_LOG_FILE_SIZE 'a')).length =
        MAX_LOG_FILE_SIZE := by
      simp only [String.length_mk, List.length_replicate]
    have hfs : fileSize [String.mk (List.replicate MAX_LOG_FILE_SIZE 'a')] =
        MAX_LOG_FILE_SIZE + 1 :=
      (fileSize_singleton (String.mk (List.replicate MAX_LOG_FILE_SIZE 'a'))).trans
        (congrArg (fun n => n + 1) hlen)
    exact hfs ▸ Nat.le_succ MAX_LOG_FILE_SIZE
  obtain ⟨w0, _, w1, w2, _, _, _, wgt⟩ :=
    log_rotation_spec [String.mk (List.replicate MAX_LOG_FILE_SIZE 'a')]
      (fun j => if j = 1 then some ["old"] else none) 1700000000 "disk full" hsize
  exact ⟨hsize, w0, w1, w2, wgt 6 (by decide)⟩

/-- Claim C10: every command exposed to the presentation layer returns the
Ok variant of its result type carrying a well-formed envelope: success
implies the error field is absent and failure implies an error message is
present; no command returns the outer error variant. -/
theorem commands_return_wellformed_ok_envelopes
    (st st1 st2 : PythonServer) (http : HttpOutcome) (probe : Nat → Bool)
    (hint : Option Nat) (statusProbe : Nat → ProbeOutcome)
    (appDataDir : Except String String) (createDirErr sidecarErr : Option String)
    (isDebug : Bool) (spawn : SpawnResult) (resourceDir : Except String Unit)
    (archX64 pExe gExe : Bool) (childId : Option Nat) (stdoutOk stderrOk : Bool) :
    okWF (stop_python_server st http).2.2 = true ∧
    okWF (get_flask_port st1 st2 probe).2 = true ∧
    okWF (check_python_server_status st hint statusProbe) = true ∧
    okWF (get_database_path appDataDir createDirErr) = true ∧
    okWFOpt (start_python_server_unix st http createDirErr sidecarErr isDebug spawn) = true ∧
    okWFOpt (start_python_server_win st http createDirErr isDebug resourceDir
      archX64 pExe gExe spawn childId stdoutOk stderrOk) = true := by
  refine ⟨rfl, ?_, ?_, ?_, ?_, ?_⟩
  · unfold get_flask_port
    repeat first | rfl | split
  · unfold check_python_server_status
    dsimp only
    repeat first | rfl | split
  · unfold get_database_path
    repeat first | rfl | split
  · unfold start_python_server_unix
    repeat first | rfl | split
  · unfold start_python_server_win
    repeat first | rfl | split

end OocApp
